import Mathlib

/-!
Verification development for the option-pricing core of the `tradetools`
repository: shallow embeddings of `src/pricing/stochastic_vol.py`,
`src/pricing/bcc97.py`, `src/pricing/calibration.py` and
`src/core/pricing/american_option.py`, together with theorems settling the
specification claims about them.

External library calls of the source (scipy quadrature, scipy optimizers,
numpy random paths, numpy least squares, datetime.now) are modelled as
explicit oracle arguments; everything else is translated line by line.
-/

open MeasureTheory ProbabilityTheory Set

/-- Standard normal density, the model of `scipy.stats.norm.pdf`. -/
noncomputable def normPdf (x : ℝ) : ℝ := gaussianPDFReal 0 1 x

/-- Standard normal cumulative distribution, the model of `scipy.stats.norm.cdf`. -/
noncomputable def normCdf (x : ℝ) : ℝ := ∫ t in Iic x, gaussianPDFReal 0 1 t

lemma gaussianPDFReal_std_neg (x : ℝ) : gaussianPDFReal 0 1 (-x) = gaussianPDFReal 0 1 x := by
  unfold gaussianPDFReal
  norm_num

lemma normCdf_neg (x : ℝ) : normCdf (-x) = 1 - normCdf x := by
  have h1 : normCdf (-x) = ∫ t in Ioi x, gaussianPDFReal 0 1 t := by
    rw [normCdf]
    have h2 : (∫ t in Iic (-x), gaussianPDFReal 0 1 t) =
        ∫ t in Iic (-x), gaussianPDFReal 0 1 (-t) := by
      simp only [gaussianPDFReal_std_neg]
    rw [h2, integral_comp_neg_Iic, neg_neg]
  have hint : Integrable (gaussianPDFReal 0 1) := integrable_gaussianPDFReal 0 1
  have htot : (∫ t in Iic x, gaussianPDFReal 0 1 t) + ∫ t in Ioi x, gaussianPDFReal 0 1 t = 1 := by
    rw [intervalIntegral.integral_Iic_add_Ioi hint.integrableOn hint.integrableOn]
    exact integral_gaussianPDFReal_eq_one 0 one_ne_zero
  have hic : normCdf x = ∫ t in Iic x, gaussianPDFReal 0 1 t := rfl
  rw [h1]
  rw [hic] at *
  linarith

/-! ## GARCH(1,1) (`src/pricing/stochastic_vol.py`, class `GARCHModel`) -/

/-- The parameter state held by a constructed `GARCHModel`. -/
structure GARCHModel where
  omega : ℝ
  alpha : ℝ
  beta : ℝ

/-- `GARCHModel.__init__`: stores (omega, alpha, beta) and raises a `ValueError`
precisely when `alpha + beta >= 1`; no other range check is performed. -/
noncomputable def GARCHModel.make (omega alpha beta : ℝ) : Except Unit GARCHModel :=
  if 1 ≤ alpha + beta then Except.error () else Except.ok ⟨omega, alpha, beta⟩

/-- `GARCHModel.forecast_variance`: the one-step branch returns
`omega + alpha * last_return^2 + beta * current_var`; any other horizon iterates
`f = omega + (alpha + beta) * f` a total of `horizon - 1` times starting from
`current_var` (the source's `for _ in range(horizon-1)` loop). -/
noncomputable def GARCHModel.forecast_variance (m : GARCHModel)
    (current_var last_return : ℝ) (horizon : ℕ) : ℝ :=
  if horizon = 1 then m.omega + m.alpha * last_return ^ 2 + m.beta * current_var
  else (fun f => m.omega + (m.alpha + m.beta) * f)^[horizon - 1] current_var

/-! ## SABR (`src/pricing/stochastic_vol.py`, class `SABRModel`) -/

structure SABRParameters where
  alpha : ℝ
  beta : ℝ
  rho : ℝ
  nu : ℝ

/-- `SABRModel.implied_vol`, translated term by term from the Hagan-expansion
code; real-exponent powers are `Real.rpow`, matching numpy float `**`. -/
noncomputable def SABRModel.implied_vol (p : SABRParameters) (F K T : ℝ) : ℝ :=
  let F_mid := (F + K) / 2
  let z := (p.nu / p.alpha) * F_mid ^ (1 - p.beta) * Real.log (F / K)
  let x_z := Real.log ((Real.sqrt (1 - 2 * p.rho * z + z ^ 2) + z - p.rho) / (1 - p.rho))
  let A := p.alpha / ((F * K) ^ ((1 - p.beta) / 2) * (1 + (1 - p.beta) ^ 2 / 24 *
      Real.log (F / K) ^ 2 + (1 - p.beta) ^ 4 / 1920 * Real.log (F / K) ^ 4))
  let B := 1 + ((1 - p.beta) ^ 2 / 24 * p.alpha ^ 2 / ((F * K) ^ (1 - p.beta)) +
      1 / 4 * p.rho * p.beta * p.nu * p.alpha / ((F * K) ^ ((1 - p.beta) / 2)) +
      (2 - 3 * p.rho ^ 2) / 24 * p.nu ^ 2) * T
  A * (z / x_z) * B

/-- Modelled from the spec: the SABR at-the-money closed-form value
`alpha / F^(1-beta)` adjusted by the `B(T)` correction term (the value the spec
requires `implied_vol` to return when `strike = forward`). -/
noncomputable def sabrATMValue (p : SABRParameters) (F T : ℝ) : ℝ :=
  (p.alpha / F ^ (1 - p.beta)) *
    (1 + ((1 - p.beta) ^ 2 / 24 * p.alpha ^ 2 / ((F * F) ^ (1 - p.beta)) +
      1 / 4 * p.rho * p.beta * p.nu * p.alpha / ((F * F) ^ ((1 - p.beta) / 2)) +
      (2 - 3 * p.rho ^ 2) / 24 * p.nu ^ 2) * T)

/-! ## Claim theorems for GARCH and SABR -/

/-- C5 counterexample: for omega = 1/10, alpha = 1/10, beta = 8/10,
current_var = 1, last_return = 2, the two-step forecast (= 1) is not
`omega + (alpha+beta) * one-step forecast` (= 127/100): the multi-step branch
iterates from `current_var` and ignores `last_return`. -/
theorem C5_counterexample :
    GARCHModel.forecast_variance ⟨1/10, 1/10, 8/10⟩ 1 2 2 ≠
      1/10 + (1/10 + 8/10) * GARCHModel.forecast_variance ⟨1/10, 1/10, 8/10⟩ 1 2 1 := by
  unfold GARCHModel.forecast_variance
  norm_num

/-- C5 (amended): the one-step recursion ties consecutive multi-step forecasts
together only from horizon 3 on, and the two-step forecast applies the
mean-reverting map to `current_var` itself (not to the one-step forecast), so
`last_return` does not enter any horizon `>= 2` forecast. -/
theorem C5_forecast_recursion (m : GARCHModel) (cv lr : ℝ) (h : ℕ) (hh : 3 ≤ h) :
    m.forecast_variance cv lr h =
      m.omega + (m.alpha + m.beta) * m.forecast_variance cv lr (h - 1) ∧
    m.forecast_variance cv lr 2 = m.omega + (m.alpha + m.beta) * cv := by
  constructor
  · have h1 : h ≠ 1 := by omega
    have h2 : h - 1 ≠ 1 := by omega
    have h3 : h - 1 = (h - 2) + 1 := by omega
    unfold GARCHModel.forecast_variance
    rw [if_neg h1, if_neg h2, h3]
    have h4 : (h - 2) + 1 - 1 = h - 2 := by omega
    rw [h4, Function.iterate_succ_apply']
  · unfold GARCHModel.forecast_variance
    norm_num

/-- C5 witness: the amended recursion at horizon 3 for a concrete model. -/
theorem C5_forecast_recursion_witness :
    GARCHModel.forecast_variance ⟨1/10, 1/10, 8/10⟩ 1 2 3 =
      1/10 + (1/10 + 8/10) * GARCHModel.forecast_variance ⟨1/10, 1/10, 8/10⟩ 1 2 (3 - 1) ∧
    GARCHModel.forecast_variance ⟨1/10, 1/10, 8/10⟩ 1 2 2 = 1/10 + (1/10 + 8/10) * 1 :=
  C5_forecast_recursion ⟨1/10, 1/10, 8/10⟩ 1 2 3 (by norm_num)

/-- C6 counterexample: `GARCHModel(omega=-1, alpha=1/10, beta=1/10)` constructs
successfully even though `omega <= 0`, contradicting the claim that such
parameters are rejected. -/
theorem C6_counterexample :
    GARCHModel.make (-1) (1/10) (1/10) = Except.ok ⟨-1, 1/10, 1/10⟩ ∧ (-1 : ℝ) ≤ 0 := by
  constructor
  · unfold GARCHModel.make
    rw [if_neg (by norm_num)]
  · norm_num

/-- C6 (amended): construction of a `GARCHModel` fails if and only if
`alpha + beta >= 1`; the positivity of omega, alpha, beta is never checked. -/
theorem C6_make_fails_iff (omega alpha beta : ℝ) :
    GARCHModel.make omega alpha beta = Except.error () ↔ 1 ≤ alpha + beta := by
  unfold GARCHModel.make
  by_cases h : 1 ≤ alpha + beta
  · simp [h]
  · simp [h]

/-- C2: at `strike = forward` the SABR code evaluates `z/x(z)` with both `z = 0`
and `x(z) = 0` (a 0/0, NaN at runtime; 0 under Lean's division convention), so
`implied_vol` does not return the spec's ATM value `alpha/F^(1-beta) * B(T)`,
which here equals 13/12 and is nonzero. -/
theorem C2_sabr_atm_division_bug :
    SABRModel.implied_vol ⟨1, 1, 0, 1⟩ 1 1 1 = 1 * (0 / 0) * (13/12) ∧
    SABRModel.implied_vol ⟨1, 1, 0, 1⟩ 1 1 1 = 0 ∧
    sabrATMValue ⟨1, 1, 0, 1⟩ 1 1 = 13/12 ∧
    (13/12 : ℝ) ≠ 0 := by
  refine ⟨?_, ?_, ?_, by norm_num⟩
  · unfold SABRModel.implied_vol
    norm_num [Real.log_one, Real.rpow_zero]
  · unfold SABRModel.implied_vol
    norm_num [Real.log_one, Real.rpow_zero]
  · unfold sabrATMValue
    norm_num [Real.rpow_zero]

/-! ## Heston (`src/pricing/stochastic_vol.py`, classes `HestonParameters`, `HestonModel`) -/

structure HestonParameters where
  kappa : ℝ
  theta : ℝ
  sigma : ℝ
  rho : ℝ
  v0 : ℝ

/-- `HestonModel.characteristic_function` (little-trap form), translated with
Mathlib complex arithmetic; `np.sqrt`/`np.log` on complex values are the
principal branch, i.e. `Complex.cpow (1/2)` and `Complex.log`. -/
noncomputable def HestonModel.characteristic_function (p : HestonParameters)
    (u : ℂ) (tau S0 r : ℝ) : ℂ :=
  let kappa : ℂ := (p.kappa : ℝ)
  let theta : ℂ := (p.theta : ℝ)
  let sigma : ℂ := (p.sigma : ℝ)
  let rho : ℂ := (p.rho : ℝ)
  let v0 : ℂ := (p.v0 : ℝ)
  let d := ((kappa - Complex.I * rho * sigma * u) ^ 2 +
      sigma ^ 2 * (Complex.I * u + u ^ 2)) ^ ((1 : ℂ) / 2)
  let g := (kappa - Complex.I * rho * sigma * u - d) /
      (kappa - Complex.I * rho * sigma * u + d)
  let C := (r : ℂ) * u * Complex.I * (tau : ℂ) +
      kappa * theta / sigma ^ 2 * ((kappa - Complex.I * rho * sigma * u - d) * (tau : ℂ) -
        2 * Complex.log ((1 - g * Complex.exp (-d * (tau : ℂ))) / (1 - g)))
  let D := (kappa - Complex.I * rho * sigma * u - d) / sigma ^ 2 *
      ((1 - Complex.exp (-d * (tau : ℂ))) / (1 - g * Complex.exp (-d * (tau : ℂ))))
  Complex.exp (C + D * v0 + Complex.I * u * (Real.log S0 : ℂ))

/-- The real integrand passed to `scipy.integrate.quad` in `price_european`. -/
noncomputable def HestonModel.integrand (p : HestonParameters)
    (S0 K T r : ℝ) (is_call : Bool) (u : ℝ) : ℝ :=
  let phi := if is_call then
      HestonModel.characteristic_function p ((u : ℂ) - Complex.I / 2) T S0 r
    else HestonModel.characteristic_function p ((u : ℂ) + Complex.I / 2) T S0 r
  (Complex.exp (-Complex.I * (u : ℂ) * (Real.log K : ℂ)) * phi / (Complex.I * (u : ℂ))).re

/-- `HestonModel.price_european`: the external adaptive quadrature
`scipy.integrate.quad` over `(0, inf)` is the oracle argument `quad` applied to
the integrand; the result is post-processed by call/put parity convention and
clamped only at zero (`max(0, price)`). -/
noncomputable def HestonModel.price_european (quad : (ℝ → ℝ) → ℝ) (p : HestonParameters)
    (S0 K T r : ℝ) (is_call : Bool) : ℝ :=
  let price := quad (HestonModel.integrand p S0 K T r is_call)
  let price := if is_call then S0 - Real.exp (-r * T) * K * price / Real.pi
    else Real.exp (-r * T) * K * price / Real.pi - S0
  max 0 price

/-! ## Calibrators (`src/pricing/calibration.py`) -/

structure MarketOption where
  strike : ℝ
  expiry : ℝ
  price : ℝ
  implied_vol : ℝ
  is_call : Bool

/-- Result type of the external optimizer `scipy.optimize.minimize`. -/
structure OptResult (α : Type) where
  x : α
  success : Bool

structure HestonCalibrator where
  spot : ℝ
  r : ℝ
  options : List MarketOption

/-- `HestonCalibrator.objective`: sum over the option basket of squared relative
price errors; `datetime.now()` is the oracle `now` (in days, with `T` in years
as `(expiry - now)/365`), and `quad` is the Heston quadrature oracle. -/
noncomputable def HestonCalibrator.objective (c : HestonCalibrator)
    (quad : (ℝ → ℝ) → ℝ) (now : ℝ) (kappa theta sigma rho v0 : ℝ) : ℝ :=
  (c.options.map (fun opt =>
    let T := (opt.expiry - now) / 365
    let model_price := HestonModel.price_european quad ⟨kappa, theta, sigma, rho, v0⟩
      c.spot opt.strike T c.r opt.is_call
    ((model_price - opt.price) / opt.price) ^ 2)).sum

/-- `HestonCalibrator.calibrate`: default initial guess `(2.0, 0.04, 0.3, -0.7,
0.04)` when the caller supplies none, external box-constrained optimizer as the
oracle `minimize`; raises (`RuntimeError`) only when the optimizer reports
failure, with no check that the option basket is nonempty. -/
noncomputable def HestonCalibrator.calibrate (c : HestonCalibrator)
    (minimize : ((ℝ×ℝ×ℝ×ℝ×ℝ) → ℝ) → (ℝ×ℝ×ℝ×ℝ×ℝ) → OptResult (ℝ×ℝ×ℝ×ℝ×ℝ))
    (quad : (ℝ → ℝ) → ℝ) (now : ℝ)
    (init_guess : Option (ℝ×ℝ×ℝ×ℝ×ℝ)) : Except Unit HestonParameters :=
  let g := init_guess.getD (2, 1/25, 3/10, -(7/10), 1/25)
  let res := minimize
    (fun v => c.objective quad now v.1 v.2.1 v.2.2.1 v.2.2.2.1 v.2.2.2.2) g
  if res.success then
    Except.ok ⟨res.x.1, res.x.2.1, res.x.2.2.1, res.x.2.2.2.1, res.x.2.2.2.2⟩
  else Except.error ()

structure SABRCalibrator where
  forward : ℝ
  options : List MarketOption

/-- `SABRCalibrator.objective`: sum of squared relative implied-vol errors. -/
noncomputable def SABRCalibrator.objective (c : SABRCalibrator) (now : ℝ)
    (alpha beta rho nu : ℝ) : ℝ :=
  (c.options.map (fun opt =>
    let T := (opt.expiry - now) / 365
    let model_vol := SABRModel.implied_vol ⟨alpha, beta, rho, nu⟩ c.forward opt.strike T
    ((model_vol - opt.implied_vol) / opt.implied_vol) ^ 2)).sum

/-- `SABRCalibrator.calibrate`: default initial guess `(0.2, 0.5, -0.3, 0.4)`,
external optimizer oracle, failure only on optimizer non-success; no emptiness
check on the basket. -/
noncomputable def SABRCalibrator.calibrate (c : SABRCalibrator)
    (minimize : ((ℝ×ℝ×ℝ×ℝ) → ℝ) → (ℝ×ℝ×ℝ×ℝ) → OptResult (ℝ×ℝ×ℝ×ℝ))
    (now : ℝ) (init_guess : Option (ℝ×ℝ×ℝ×ℝ)) : Except Unit SABRParameters :=
  let g := init_guess.getD (1/5, 1/2, -(3/10), 2/5)
  let res := minimize (fun v => c.objective now v.1 v.2.1 v.2.2.1 v.2.2.2) g
  if res.success then Except.ok ⟨res.x.1, res.x.2.1, res.x.2.2.1, res.x.2.2.2⟩
  else Except.error ()

/-! ## Claim theorems for Heston pricing and calibration -/

lemma price_european_call_eq (quad : (ℝ → ℝ) → ℝ) (p : HestonParameters) (S0 K T r : ℝ) :
    HestonModel.price_european quad p S0 K T r true =
      max 0 (S0 - Real.exp (-r * T) * K * quad (HestonModel.integrand p S0 K T r true) /
        Real.pi) := by
  simp only [HestonModel.price_european, eq_self_iff_true, if_true]

lemma price_european_nonneg (quad : (ℝ → ℝ) → ℝ) (p : HestonParameters)
    (S0 K T r : ℝ) (c : Bool) : 0 ≤ HestonModel.price_european quad p S0 K T r c :=
  le_max_left 0 _

/-- C4 counterexample: with the quadrature oracle returning `10 * pi` on a deep
in-the-money call (S0 = 100, K = 50, T = 1, r = 0), `price_european` returns 0,
strictly below the intrinsic floor `max 0 (S0 - K * exp (-r*T)) = 50`: only the
zero clamp is applied, the intrinsic floor is not. -/
theorem C4_counterexample :
    HestonModel.price_european (fun _ => 10 * Real.pi) ⟨2, 1/25, 3/10, -(1/2), 1/25⟩
      100 50 1 0 true = 0 ∧
    max 0 (100 - 50 * Real.exp (-(0:ℝ) * 1)) = 50 := by
  constructor
  · rw [price_european_call_eq]
    rw [max_eq_left]
    have h : Real.exp (-(0:ℝ) * 1) * 50 * ((fun _ => 10 * Real.pi)
        (HestonModel.integrand ⟨2, 1/25, 3/10, -(1/2), 1/25⟩ 100 50 1 0 true)) / Real.pi
        = 500 := by
      rw [mul_div_assoc]
      simp only []
      rw [mul_div_assoc, div_self Real.pi_ne_zero, mul_one]
      norm_num
    rw [h]
    norm_num
  · have h : (100:ℝ) - 50 * Real.exp (-(0:ℝ) * 1) = 50 := by norm_num
    rw [h]
    exact max_eq_right (by norm_num)

/-- C4 (amended): for every quadrature outcome and all inputs the returned value
is `max 0` of the parity-convention post-processed integral, hence nonnegative;
no intrinsic-value floor is enforced. -/
theorem C4_price_clamped_at_zero_only (quad : (ℝ → ℝ) → ℝ) (p : HestonParameters)
    (S0 K T r : ℝ) (c : Bool) :
    0 ≤ HestonModel.price_european quad p S0 K T r c ∧
    HestonModel.price_european quad p S0 K T r true =
      max 0 (S0 - Real.exp (-r * T) * K * quad (HestonModel.integrand p S0 K T r true) /
        Real.pi) :=
  ⟨price_european_nonneg quad p S0 K T r c, price_european_call_eq quad p S0 K T r⟩

/-- C7 counterexample: calibrating on an empty option basket does not raise any
missing-market-data failure: with the optimizer oracle behaving as `L-BFGS-B`
does on the identically-zero empty-basket objective (immediate successful
convergence at the initial point), both calibrators return the default initial
guess as a parameter struct. -/
theorem C7_counterexample :
    HestonCalibrator.calibrate ⟨100, 1/20, []⟩ (fun _ x0 => ⟨x0, true⟩) (fun _ => 0) 0 none =
      Except.ok ⟨2, 1/25, 3/10, -(7/10), 1/25⟩ ∧
    SABRCalibrator.calibrate ⟨100, []⟩ (fun _ x0 => ⟨x0, true⟩) 0 none =
      Except.ok ⟨1/5, 1/2, -(3/10), 2/5⟩ := by
  constructor <;> rfl

/-- C7 (amended): with an empty basket the Heston objective is identically zero,
and `calibrate` returns `ok` of whatever point a successful optimizer reports
(no emptiness check, no missing-data failure path exists in the code). -/
theorem C7_empty_basket_returns_params (quad : (ℝ → ℝ) → ℝ) (now spot r : ℝ) :
    (∀ kappa theta sigma rho v0,
      HestonCalibrator.objective ⟨spot, r, []⟩ quad now kappa theta sigma rho v0 = 0) ∧
    (∀ minimize g,
      (minimize (fun v : ℝ×ℝ×ℝ×ℝ×ℝ =>
          HestonCalibrator.objective ⟨spot, r, []⟩ quad now v.1 v.2.1 v.2.2.1 v.2.2.2.1 v.2.2.2.2)
        (g.getD (2, 1/25, 3/10, -(7/10), 1/25))).success = true →
      ∃ out, HestonCalibrator.calibrate ⟨spot, r, []⟩ minimize quad now g = Except.ok out) := by
  constructor
  · intro kappa theta sigma rho v0
    rfl
  · intro minimize g h
    simp only [HestonCalibrator.calibrate, h, eq_self_iff_true, if_true]
    exact ⟨_, rfl⟩

/-- C7 witness: the amended statement applied to the concrete empty calibrator
with the immediately-converging optimizer oracle. -/
theorem C7_empty_basket_returns_params_witness :
    HestonCalibrator.objective ⟨100, 1/20, []⟩ (fun _ => 0) 0 2 (1/25) (3/10) (-(7/10)) (1/25) = 0 ∧
    (((fun _ x0 => ⟨x0, true⟩ : ((ℝ×ℝ×ℝ×ℝ×ℝ) → ℝ) → (ℝ×ℝ×ℝ×ℝ×ℝ) → OptResult (ℝ×ℝ×ℝ×ℝ×ℝ))
        (fun v => HestonCalibrator.objective ⟨100, 1/20, []⟩ (fun _ => 0) 0
          v.1 v.2.1 v.2.2.1 v.2.2.2.1 v.2.2.2.2)
        ((none : Option (ℝ×ℝ×ℝ×ℝ×ℝ)).getD (2, 1/25, 3/10, -(7/10), 1/25))).success = true) ∧
    (∃ out, HestonCalibrator.calibrate ⟨100, 1/20, []⟩ (fun _ x0 => ⟨x0, true⟩)
      (fun _ => 0) 0 none = Except.ok out) :=
  ⟨(C7_empty_basket_returns_params (fun _ => 0) 0 100 (1/20)).1 2 (1/25) (3/10) (-(7/10)) (1/25),
   rfl,
   (C7_empty_basket_returns_params (fun _ => 0) 0 100 (1/20)).2 (fun _ x0 => ⟨x0, true⟩) none rfl⟩

/-! ## BCC97 jump diffusion (`src/pricing/bcc97.py`) -/

structure BCC97Params where
  spot : ℝ
  strike : ℝ
  time_to_maturity : ℝ
  risk_free_rate : ℝ
  dividend_rate : ℝ
  volatility : ℝ
  jump_intensity : ℝ
  jump_mean : ℝ
  jump_volatility : ℝ

/-- `BCC97PricingModel._calculate_d1_d2` (leading underscore dropped). -/
noncomputable def BCC97PricingModel.calculate_d1_d2 (p : BCC97Params) : ℝ × ℝ :=
  let sigma_sqrt_t := p.volatility * Real.sqrt p.time_to_maturity
  let d1 := (Real.log (p.spot / p.strike) +
      (p.risk_free_rate - p.dividend_rate + p.volatility ^ 2 / 2) * p.time_to_maturity) /
    sigma_sqrt_t
  (d1, d1 - sigma_sqrt_t)

/-- `BCC97PricingModel._calculate_bs_term`. -/
noncomputable def BCC97PricingModel.calculate_bs_term (p : BCC97Params) (d1 d2 : ℝ)
    (is_call : Bool) : ℝ :=
  if is_call then
    p.spot * Real.exp (-p.dividend_rate * p.time_to_maturity) * normCdf d1 -
      p.strike * Real.exp (-p.risk_free_rate * p.time_to_maturity) * normCdf d2
  else
    p.strike * Real.exp (-p.risk_free_rate * p.time_to_maturity) * normCdf (-d2) -
      p.spot * Real.exp (-p.dividend_rate * p.time_to_maturity) * normCdf (-d1)

/-- The `temp_params` built inside `_calculate_jump_term` for `n` jumps:
rate and volatility adjusted, jump parameters zeroed. -/
noncomputable def BCC97PricingModel.jumpAdjustedParams (p : BCC97Params) (n : ℕ) : BCC97Params :=
  ⟨p.spot, p.strike, p.time_to_maturity,
   p.risk_free_rate + n * Real.log (1 + p.jump_mean) / p.time_to_maturity,
   p.dividend_rate,
   Real.sqrt (p.volatility ^ 2 + n * p.jump_volatility ^ 2 / p.time_to_maturity),
   0, 0, 0⟩

/-- The Poisson pmf weight `exp(-lambda*t) * (lambda*t)^n / n!` used in
`_calculate_jump_term`. -/
noncomputable def BCC97PricingModel.poissonWeight (p : BCC97Params) (n : ℕ) : ℝ :=
  Real.exp (-p.jump_intensity * p.time_to_maturity) *
    (p.jump_intensity * p.time_to_maturity) ^ n / n.factorial

/-- `BCC97PricingModel._calculate_jump_term`: truncated Poisson-weighted sum of
Black-Scholes terms at jump-adjusted parameters, `n = 1..10`. -/
noncomputable def BCC97PricingModel.calculate_jump_term (p : BCC97Params) (is_call : Bool) : ℝ :=
  ∑ n ∈ Finset.Icc 1 10,
    BCC97PricingModel.calculate_bs_term (BCC97PricingModel.jumpAdjustedParams p n)
      (BCC97PricingModel.calculate_d1_d2 (BCC97PricingModel.jumpAdjustedParams p n)).1
      (BCC97PricingModel.calculate_d1_d2 (BCC97PricingModel.jumpAdjustedParams p n)).2 is_call *
    BCC97PricingModel.poissonWeight p n

structure BCC97Greeks where
  delta : ℝ
  gamma : ℝ
  theta : ℝ
  vega : ℝ
  rho : ℝ

/-- `BCC97PricingModel._calculate_greeks`: closed-form Black-Scholes Greeks
evaluated at the base (non-jump-adjusted) parameters d1/d2. -/
noncomputable def BCC97PricingModel.calculate_greeks (p : BCC97Params) (d1 d2 : ℝ)
    (is_call : Bool) : BCC97Greeks :=
  let s := p.spot
  let k := p.strike
  let r := p.risk_free_rate
  let q := p.dividend_rate
  let t := p.time_to_maturity
  let sigma := p.volatility
  let exp_qt := Real.exp (-q * t)
  let delta := if is_call then exp_qt * normCdf d1 else exp_qt * (normCdf d1 - 1)
  let gamma := exp_qt * normPdf d1 / (s * sigma * Real.sqrt t)
  let exp_rt := Real.exp (-r * t)
  let sqrt_t := Real.sqrt t
  let theta := if is_call then
      -exp_qt * s * normPdf d1 * sigma / (2 * sqrt_t) + q * s * exp_qt * normCdf d1 -
        r * k * exp_rt * normCdf d2
    else
      -exp_qt * s * normPdf d1 * sigma / (2 * sqrt_t) - q * s * exp_qt * normCdf (-d1) +
        r * k * exp_rt * normCdf (-d2)
  let vega := s * exp_qt * normPdf d1 * sqrt_t
  let rho := if is_call then k * t * exp_rt * normCdf d2 else -(k * t * exp_rt * normCdf (-d2))
  ⟨delta, gamma, theta, vega, rho⟩

structure BCC97Result where
  price : ℝ
  greeks : BCC97Greeks

/-- `BCC97PricingModel.price_and_greeks`: price = BS term + jump term; Greeks
from `_calculate_greeks` at the base d1/d2. -/
noncomputable def BCC97PricingModel.price_and_greeks (p : BCC97Params) (is_call : Bool) :
    BCC97Result :=
  let d := BCC97PricingModel.calculate_d1_d2 p
  let jump_term := BCC97PricingModel.calculate_jump_term p is_call
  let bs_term := BCC97PricingModel.calculate_bs_term p d.1 d.2 is_call
  ⟨bs_term + jump_term, BCC97PricingModel.calculate_greeks p d.1 d.2 is_call⟩

/-! ## Put-call parity structure of BCC97 (claims C3, C8) -/

lemma bs_term_parity (p : BCC97Params) (d1 d2 : ℝ) :
    BCC97PricingModel.calculate_bs_term p d1 d2 true -
      BCC97PricingModel.calculate_bs_term p d1 d2 false =
    p.spot * Real.exp (-p.dividend_rate * p.time_to_maturity) -
      p.strike * Real.exp (-p.risk_free_rate * p.time_to_maturity) := by
  simp only [BCC97PricingModel.calculate_bs_term, if_true, Bool.false_eq_true, if_false]
  rw [normCdf_neg d1, normCdf_neg d2]
  ring

lemma jump_term_parity (p : BCC97Params) :
    BCC97PricingModel.calculate_jump_term p true -
      BCC97PricingModel.calculate_jump_term p false =
    ∑ n ∈ Finset.Icc 1 10, BCC97PricingModel.poissonWeight p n *
      (p.spot * Real.exp (-p.dividend_rate * p.time_to_maturity) -
       p.strike * Real.exp (-(p.risk_free_rate + n * Real.log (1 + p.jump_mean) /
         p.time_to_maturity) * p.time_to_maturity)) := by
  unfold BCC97PricingModel.calculate_jump_term
  rw [← Finset.sum_sub_distrib]
  apply Finset.sum_congr rfl
  intro n _
  rw [← sub_mul, bs_term_parity]
  simp only [BCC97PricingModel.jumpAdjustedParams]
  ring

lemma bcc97_call_sub_put (p : BCC97Params) :
    (BCC97PricingModel.price_and_greeks p true).price -
      (BCC97PricingModel.price_and_greeks p false).price =
    (p.spot * Real.exp (-p.dividend_rate * p.time_to_maturity) -
      p.strike * Real.exp (-p.risk_free_rate * p.time_to_maturity)) +
    ∑ n ∈ Finset.Icc 1 10, BCC97PricingModel.poissonWeight p n *
      (p.spot * Real.exp (-p.dividend_rate * p.time_to_maturity) -
       p.strike * Real.exp (-(p.risk_free_rate + n * Real.log (1 + p.jump_mean) /
         p.time_to_maturity) * p.time_to_maturity)) := by
  have h1 := bs_term_parity p (BCC97PricingModel.calculate_d1_d2 p).1
    (BCC97PricingModel.calculate_d1_d2 p).2
  have h2 := jump_term_parity p
  simp only [BCC97PricingModel.price_and_greeks]
  linarith

/-- C3 (amended): call minus put decomposes as the parity value
`S*exp(-q*T) - K*exp(-r*T)` plus a jump correction, namely the Poisson-weighted
sum over `n = 1..10` of `S*exp(-q*T) - K*exp(-r_n*T)` at the jump-adjusted
rates `r_n`; exact parity therefore holds only when this correction vanishes
(e.g. zero jump intensity), not for all parameter values. -/
theorem C3_put_call_parity_decomposition (p : BCC97Params) :
    (BCC97PricingModel.price_and_greeks p true).price -
      (BCC97PricingModel.price_and_greeks p false).price =
    (p.spot * Real.exp (-p.dividend_rate * p.time_to_maturity) -
      p.strike * Real.exp (-p.risk_free_rate * p.time_to_maturity)) +
    ∑ n ∈ Finset.Icc 1 10, BCC97PricingModel.poissonWeight p n *
      (p.spot * Real.exp (-p.dividend_rate * p.time_to_maturity) -
       p.strike * Real.exp (-(p.risk_free_rate + n * Real.log (1 + p.jump_mean) /
         p.time_to_maturity) * p.time_to_maturity)) :=
  bcc97_call_sub_put p

lemma c3_gap :
    (BCC97PricingModel.price_and_greeks ⟨100, 50, 1, 0, 0, 1, 1, 0, 1⟩ true).price -
      (BCC97PricingModel.price_and_greeks ⟨100, 50, 1, 0, 0, 1, 1, 0, 1⟩ false).price -
      (100 * Real.exp (-(0:ℝ) * 1) - 50 * Real.exp (-(0:ℝ) * 1)) =
    ∑ n ∈ Finset.Icc 1 10, Real.exp (-1) / n.factorial * 50 := by
  have hd := bcc97_call_sub_put ⟨100, 50, 1, 0, 0, 1, 1, 0, 1⟩
  rw [hd]
  simp only [BCC97PricingModel.poissonWeight]
  norm_num [Real.log_one]

/-- C3 counterexample: for S=100, K=50, T=1, r=q=0, sigma=1, lambda=1, mu_J=0,
sigma_J=1, the call/put prices from `price_and_greeks` violate put-call parity
by `50 * exp(-1) * (sum of 1/n!) > 16`, far beyond a 1e-4 relative tolerance
(here 1e-4 * (S+K) = 0.015). -/
theorem C3_counterexample :
    ¬ |(BCC97PricingModel.price_and_greeks ⟨100, 50, 1, 0, 0, 1, 1, 0, 1⟩ true).price -
        (BCC97PricingModel.price_and_greeks ⟨100, 50, 1, 0, 0, 1, 1, 0, 1⟩ false).price -
        (100 * Real.exp (-(0:ℝ) * 1) - 50 * Real.exp (-(0:ℝ) * 1))| ≤
      1/10000 * (100 + 50) := by
  rw [c3_gap]
  intro hcon
  have hpos : ∀ n ∈ Finset.Icc (1:ℕ) 10, (0:ℝ) ≤ Real.exp (-1) / n.factorial * 50 := by
    intro n _
    positivity
  have hone : Real.exp (-1) / (Nat.factorial 1) * 50 ≤
      ∑ n ∈ Finset.Icc 1 10, Real.exp (-1) / n.factorial * 50 :=
    Finset.single_le_sum hpos (by norm_num)
  have hnn : (0:ℝ) ≤ ∑ n ∈ Finset.Icc 1 10, Real.exp (-1) / n.factorial * 50 :=
    Finset.sum_nonneg hpos
  rw [abs_of_nonneg hnn] at hcon
  have hexp : (1:ℝ)/3 < Real.exp (-1) := by
    rw [Real.exp_neg]
    have h3 : Real.exp 1 < 3 := by
      have := Real.exp_one_lt_d9
      linarith
    have hp := Real.exp_pos 1
    rw [div_lt_iff₀ (by norm_num : (0:ℝ) < 3)] at *
    nlinarith [mul_inv_cancel₀ (ne_of_gt hp)]
  have hfac : (Nat.factorial 1 : ℝ) = 1 := by norm_num
  rw [hfac, div_one] at hone
  linarith

/-- C8: the five Greeks returned by `price_and_greeks` depend only on the six
base fields (spot, strike, maturity, rates, dividend, volatility); two
parameter structs differing only in jump intensity/mean/volatility yield
identical Greeks. -/
theorem C8_greeks_ignore_jump_parameters (p q : BCC97Params)
    (h1 : p.spot = q.spot) (h2 : p.strike = q.strike)
    (h3 : p.time_to_maturity = q.time_to_maturity)
    (h4 : p.risk_free_rate = q.risk_free_rate) (h5 : p.dividend_rate = q.dividend_rate)
    (h6 : p.volatility = q.volatility) (c : Bool) :
    (BCC97PricingModel.price_and_greeks p c).greeks =
      (BCC97PricingModel.price_and_greeks q c).greeks := by
  obtain ⟨s, k, t, r, dv, vol, j1, j2, j3⟩ := p
  obtain ⟨s', k', t', r', dv', vol', j1', j2', j3'⟩ := q
  dsimp only at h1 h2 h3 h4 h5 h6
  subst h1
  subst h2
  subst h3
  subst h4
  subst h5
  subst h6
  rfl

/-- C8 witness: identical Greeks for two concrete parameter sets differing only
in the three jump fields. -/
theorem C8_greeks_ignore_jump_parameters_witness :
    (BCC97PricingModel.price_and_greeks ⟨100, 100, 1, 1/20, 1/100, 1/5, 1, 1/10, 3/10⟩ true).greeks =
      (BCC97PricingModel.price_and_greeks ⟨100, 100, 1, 1/20, 1/100, 1/5, 2, -(1/20), 1/2⟩ true).greeks :=
  C8_greeks_ignore_jump_parameters _ _ rfl rfl rfl rfl rfl rfl true

/-! ## American option LSM pricer (`src/core/pricing/american_option.py`) -/

structure AmericanOptionParams where
  S0 : ℝ
  K : ℝ
  T : ℝ
  r : ℝ
  sigma : ℝ
  div : ℝ
  is_call : Bool

/-- Intrinsic payoff `h`: `max(S-K, 0)` for calls, `max(K-S, 0)` for puts. -/
noncomputable def AmericanOptionPricer.payoff (p : AmericanOptionParams) (s : ℝ) : ℝ :=
  if p.is_call then max (s - p.K) 0 else max (p.K - s) 0

/-- The in-the-money test `S[t] > K` (call) / `S[t] < K` (put). -/
noncomputable def AmericanOptionPricer.itm (p : AmericanOptionParams) (s : ℝ) : Bool :=
  if p.is_call then decide (p.K < s) else decide (s < p.K)

/-- The transposed regression design matrix `matrix.T` passed to
`np.linalg.lstsq`: one row per in-the-money path, columns the powers
`rel_S^i`, `i = 0..num_basis`. -/
noncomputable def AmericanOptionPricer.basisMatrixT (num_basis : ℕ) (relS : List ℝ) :
    List (List ℝ) :=
  relS.map (fun s => (List.range (num_basis + 1)).map (fun i => s ^ i))

/-- `np.dot(reg, matrix)` evaluated at one path's spot: the fitted polynomial
continuation value. -/
noncomputable def AmericanOptionPricer.polyEval (reg : List ℝ) (num_basis : ℕ) (s : ℝ) : ℝ :=
  ((List.range (num_basis + 1)).map (fun i => reg.getD i 0 * s ^ i)).sum

/-- One backward-induction step of `price` (lines 98-127): given row `t+1` of
the value matrix (`Vnext`) and the spots at `t`, produce row `t`. In-the-money
paths get `max`-style exercise-vs-discounted-continuation (strict comparison
`exercise > continuation`); all other entries of row `t` keep their initial
value `h[t]` (the source updates only `V[t, itm]`); when no path is in the
money the regression block is skipped and the whole row keeps `h[t]`, which
this pointwise form reproduces. `np.linalg.lstsq` is the oracle `lstsq`. -/
noncomputable def AmericanOptionPricer.stepV (lstsq : List (List ℝ) → List ℝ → List ℝ)
    (num_basis : ℕ) (p : AmericanOptionParams) (M : ℕ) (df : ℝ)
    (St : ℕ → ℝ) (Vnext : ℕ → ℝ) : ℕ → ℝ :=
  let idx := (List.range M).filter (fun j => AmericanOptionPricer.itm p (St j))
  let relS := idx.map St
  let relV := idx.map (fun j => Vnext j * df)
  let reg := lstsq (AmericanOptionPricer.basisMatrixT num_basis relS) relV
  fun j =>
    if AmericanOptionPricer.itm p (St j) then
      if AmericanOptionPricer.polyEval reg num_basis (St j) <
          AmericanOptionPricer.payoff p (St j) then
        AmericanOptionPricer.payoff p (St j)
      else Vnext j * df
    else AmericanOptionPricer.payoff p (St j)

/-- Rows of the value matrix `V`, indexed from maturity: `Vrow 0` is row
`num_steps` (`= h` at maturity) and `Vrow (k+1)` is row `num_steps - (k+1)`,
obtained from `Vrow k` by `stepV` with the constant one-step discount factor
`exp(-r * dt)`, `dt = T / num_steps`; this is the loop
`for t in range(num_steps - 1, 0, -1)`. -/
noncomputable def AmericanOptionPricer.Vrow (lstsq : List (List ℝ) → List ℝ → List ℝ)
    (num_basis : ℕ) (p : AmericanOptionParams) (N M : ℕ) (S : ℕ → ℕ → ℝ) : ℕ → ℕ → ℝ
  | 0 => fun j => AmericanOptionPricer.payoff p (S N j)
  | k + 1 => AmericanOptionPricer.stepV lstsq num_basis p M
      (Real.exp (-p.r * (p.T / (N : ℝ)))) (S (N - (k + 1)))
      (AmericanOptionPricer.Vrow lstsq num_basis p N M S k)

/-- Lines 129-131 of `price`:
`option_value = max(np.mean(V[1] * exp(-r*dt)), h[0,0])`, where `V[1]` is
`Vrow (N-1)` and the mean is the path-average. -/
noncomputable def AmericanOptionPricer.optionValue (lstsq : List (List ℝ) → List ℝ → List ℝ)
    (num_basis : ℕ) (p : AmericanOptionParams) (N M : ℕ) (S : ℕ → ℕ → ℝ) : ℝ :=
  max ((∑ j ∈ Finset.range M,
      AmericanOptionPricer.Vrow lstsq num_basis p N M S (N - 1) j *
        Real.exp (-p.r * (p.T / (N : ℝ)))) / (M : ℝ))
    (AmericanOptionPricer.payoff p (S 0 0))

lemma payoff_nonneg (p : AmericanOptionParams) (s : ℝ) :
    0 ≤ AmericanOptionPricer.payoff p s := by
  unfold AmericanOptionPricer.payoff
  split_ifs <;> exact le_max_right _ _

lemma Vrow_nonneg (lstsq : List (List ℝ) → List ℝ → List ℝ) (num_basis : ℕ)
    (p : AmericanOptionParams) (N M : ℕ) (S : ℕ → ℕ → ℝ) :
    ∀ k j, 0 ≤ AmericanOptionPricer.Vrow lstsq num_basis p N M S k j := by
  intro k
  induction k with
  | zero =>
    intro j
    exact payoff_nonneg p (S N j)
  | succ k ih =>
    intro j
    simp only [AmericanOptionPricer.Vrow, AmericanOptionPricer.stepV]
    split_ifs
    · exact payoff_nonneg p _
    · exact mul_nonneg (ih j) (Real.exp_nonneg _)
    · exact payoff_nonneg p _

lemma optionValue_ge_intrinsic (lstsq : List (List ℝ) → List ℝ → List ℝ) (num_basis : ℕ)
    (p : AmericanOptionParams) (N M : ℕ) (S : ℕ → ℕ → ℝ) :
    AmericanOptionPricer.payoff p (S 0 0) ≤
      AmericanOptionPricer.optionValue lstsq num_basis p N M S :=
  le_max_right _ _

lemma optionValue_nonneg (lstsq : List (List ℝ) → List ℝ → List ℝ) (num_basis : ℕ)
    (p : AmericanOptionParams) (N M : ℕ) (S : ℕ → ℕ → ℝ) :
    0 ≤ AmericanOptionPricer.optionValue lstsq num_basis p N M S :=
  le_trans (payoff_nonneg p (S 0 0)) (optionValue_ge_intrinsic lstsq num_basis p N M S)

lemma Vrow_zero (lstsq : List (List ℝ) → List ℝ → List ℝ) (num_basis : ℕ)
    (p : AmericanOptionParams) (N M : ℕ) (S : ℕ → ℕ → ℝ) :
    AmericanOptionPricer.Vrow lstsq num_basis p N M S 0 =
      fun j => AmericanOptionPricer.payoff p (S N j) := rfl

lemma Vrow_succ (lstsq : List (List ℝ) → List ℝ → List ℝ) (num_basis : ℕ)
    (p : AmericanOptionParams) (N M : ℕ) (S : ℕ → ℕ → ℝ) (k : ℕ) :
    AmericanOptionPricer.Vrow lstsq num_basis p N M S (k + 1) =
      AmericanOptionPricer.stepV lstsq num_basis p M
        (Real.exp (-p.r * (p.T / (N : ℝ)))) (S (N - (k + 1)))
        (AmericanOptionPricer.Vrow lstsq num_basis p N M S k) := rfl

/-- Concrete put parameters for the LSM counterexamples:
S0 = 10, K = 10, T = 1, r = 0, sigma = 1, no dividend. -/
noncomputable def lsmPutParams : AmericanOptionParams := ⟨10, 10, 1, 0, 1, 0, false⟩

/-- A concrete realization of the simulated price grid with two steps and one
path: S[0] = 10, S[1] = 11 (out of the money for the put), S[2] = 5. -/
noncomputable def lsmGrid : ℕ → ℕ → ℝ :=
  fun t _ => if t = 0 then 10 else if t = 1 then 11 else 5

/-- A trivial regression oracle; its output is irrelevant at the failing input
because the step in question has no in-the-money path. -/
noncomputable def lsmZeroReg : List (List ℝ) → List ℝ → List ℝ := fun _ _ => []

/-- C1: on the concrete grid the single path is out of the money at t = 1 (and
that step has zero in-the-money paths, so the source skips the regression
block); the code leaves `V[1] = h[1] = 0` instead of carrying the discounted
next-step value `df * V[2] = 1 * 5 = 5`. Out-of-the-money paths do not keep
their discounted future value, and a zero-ITM step does not carry values
forward discounted: row t keeps the intrinsic values `h[t]`. -/
theorem C1_otm_values_not_carried :
    AmericanOptionPricer.itm lsmPutParams (lsmGrid 1 0) = false ∧
    AmericanOptionPricer.Vrow lsmZeroReg 0 lsmPutParams 2 1 lsmGrid 1 0 = 0 ∧
    AmericanOptionPricer.Vrow lsmZeroReg 0 lsmPutParams 2 1 lsmGrid 0 0 = 5 ∧
    Real.exp (-lsmPutParams.r * (lsmPutParams.T / ((2:ℕ) : ℝ))) = 1 ∧
    (0 : ℝ) ≠ 1 * 5 := by
  have hitm : AmericanOptionPricer.itm lsmPutParams (lsmGrid 1 0) = false := by
    unfold AmericanOptionPricer.itm lsmPutParams lsmGrid
    norm_num
  refine ⟨hitm, ?_, ?_, ?_, by norm_num⟩
  · rw [show (1:ℕ) = 0 + 1 from rfl, Vrow_succ]
    simp only [AmericanOptionPricer.stepV]
    rw [show (2:ℕ) - (0 + 1) = 1 from rfl]
    rw [hitm]
    simp only [Bool.false_eq_true, if_false]
    unfold AmericanOptionPricer.payoff lsmPutParams lsmGrid
    norm_num
  · rw [Vrow_zero]
    unfold AmericanOptionPricer.payoff lsmPutParams lsmGrid
    norm_num
  · unfold lsmPutParams
    norm_num

/-! ### Python object semantics for the finite-difference Greeks

`AmericanOptionParams(**params.__dict__)` allocates a fresh copy of the caller
object; `params_up.S0 *= ...` etc. assign through the copy's reference. This is
modelled by a store of parameter objects addressed by naturals with an
allocation counter. -/

structure ParamStore where
  params : ℕ → AmericanOptionParams
  next : ℕ

noncomputable def ParamStore.get (σ : ParamStore) (a : ℕ) : AmericanOptionParams :=
  σ.params a

noncomputable def ParamStore.set (σ : ParamStore) (a : ℕ) (p : AmericanOptionParams) :
    ParamStore :=
  ⟨Function.update σ.params a p, σ.next⟩

noncomputable def ParamStore.alloc (σ : ParamStore) (p : AmericanOptionParams) :
    ℕ × ParamStore :=
  (σ.next, ⟨Function.update σ.params σ.next p, σ.next + 1⟩)

noncomputable def withS0 (p : AmericanOptionParams) (x : ℝ) : AmericanOptionParams :=
  ⟨x, p.K, p.T, p.r, p.sigma, p.div, p.is_call⟩

noncomputable def withT (p : AmericanOptionParams) (x : ℝ) : AmericanOptionParams :=
  ⟨p.S0, p.K, x, p.r, p.sigma, p.div, p.is_call⟩

noncomputable def withSigma (p : AmericanOptionParams) (x : ℝ) : AmericanOptionParams :=
  ⟨p.S0, p.K, p.T, p.r, x, p.div, p.is_call⟩

/-- Pricer configuration: `num_steps`, `num_paths`, `num_basis`, plus the two
external oracles (`np.random`-driven path simulation and `np.linalg.lstsq`). -/
structure LSMConfig where
  num_steps : ℕ
  num_paths : ℕ
  num_basis : ℕ
  sim : AmericanOptionParams → ℕ → ℕ → ℝ
  lstsq : List (List ℝ) → List ℝ → List ℝ

/-- The five mutually recursive entry points of `AmericanOptionPricer`. -/
inductive LSMCall where
  | price (a : ℕ)
  | delta (a : ℕ) (eps : ℝ)
  | gamma (a : ℕ) (eps : ℝ)
  | theta (a : ℕ) (eps : ℝ)
  | vega (a : ℕ) (eps : ℝ)

/-- Exception-propagating sequencing: run the continuation only when the first
call returned a value (a Python exception aborts the caller). -/
noncomputable def andThen (st : ParamStore × Option ℝ)
    (k : ParamStore → ℝ → ParamStore × Option ℝ) : ParamStore × Option ℝ :=
  match st with
  | (σ, none) => (σ, none)
  | (σ, some x) => k σ x

/-- Fueled model of the mutually recursive methods `price`, `compute_delta`,
`compute_gamma`, `compute_theta`, `compute_vega`: `price` computes
`option_value` from the simulated paths and then calls the four Greek
routines with their default bumps, each of which re-enters `price` on
perturbed parameter copies (the source has no value-only pricing routine);
the Python call-stack budget is the fuel, exhaustion (`RecursionError`)
yields `none`. -/
noncomputable def lsmRun (cfg : LSMConfig) : ℕ → ParamStore → LSMCall → ParamStore × Option ℝ
  | 0, σ, _ => (σ, none)
  | fuel + 1, σ, c =>
    match c with
    | .price a =>
      let p := σ.get a
      let ov := AmericanOptionPricer.optionValue cfg.lstsq cfg.num_basis p cfg.num_steps
        cfg.num_paths (cfg.sim p)
      andThen (lsmRun cfg fuel σ (.delta a (1/100))) (fun σ1 _ =>
        andThen (lsmRun cfg fuel σ1 (.gamma a (1/100))) (fun σ2 _ =>
          andThen (lsmRun cfg fuel σ2 (.theta a (1/365))) (fun σ3 _ =>
            andThen (lsmRun cfg fuel σ3 (.vega a (1/1000))) (fun σ4 _ => (σ4, some ov)))))
    | .delta a eps =>
      let p := σ.get a
      let up := σ.alloc p
      let σu := up.2.set up.1 (withS0 (up.2.get up.1) ((up.2.get up.1).S0 * (1 + eps)))
      let dn := σu.alloc p
      let σd := dn.2.set dn.1 (withS0 (dn.2.get dn.1) ((dn.2.get dn.1).S0 * (1 - eps)))
      andThen (lsmRun cfg fuel σd (.price up.1)) (fun σ5 pu =>
        andThen (lsmRun cfg fuel σ5 (.price dn.1)) (fun σ6 pd =>
          (σ6, some ((pu - pd) / (2 * eps * (σ6.get a).S0)))))
    | .gamma a eps =>
      let p := σ.get a
      let up := σ.alloc p
      let σu := up.2.set up.1 (withS0 (up.2.get up.1) ((up.2.get up.1).S0 * (1 + eps)))
      let dn := σu.alloc p
      let σd := dn.2.set dn.1 (withS0 (dn.2.get dn.1) ((dn.2.get dn.1).S0 * (1 - eps)))
      andThen (lsmRun cfg fuel σd (.delta up.1 (1/100))) (fun σ5 du =>
        andThen (lsmRun cfg fuel σ5 (.delta dn.1 (1/100))) (fun σ6 dd =>
          (σ6, some ((du - dd) / (2 * eps * (σ6.get a).S0)))))
    | .theta a eps =>
      let p := σ.get a
      let dn := σ.alloc p
      let σd := dn.2.set dn.1 (withT (dn.2.get dn.1) ((dn.2.get dn.1).T - eps))
      andThen (lsmRun cfg fuel σd (.price a)) (fun σ3 pr =>
        andThen (lsmRun cfg fuel σ3 (.price dn.1)) (fun σ4 pd =>
          (σ4, some (-(pr - pd) / eps))))
    | .vega a eps =>
      let p := σ.get a
      let up := σ.alloc p
      let σu := up.2.set up.1 (withSigma (up.2.get up.1) ((up.2.get up.1).sigma + eps))
      let dn := σu.alloc p
      let σd := dn.2.set dn.1 (withSigma (dn.2.get dn.1) ((dn.2.get dn.1).sigma - eps))
      andThen (lsmRun cfg fuel σd (.price up.1)) (fun σ5 pu =>
        andThen (lsmRun cfg fuel σ5 (.price dn.1)) (fun σ6 pd =>
          (σ6, some ((pu - pd) / (2 * eps)))))

/-- `AmericanOptionPricer.price` (the full method, returning the `price` entry
of its result dict when it returns at all). -/
noncomputable def AmericanOptionPricer.price (cfg : LSMConfig) (fuel : ℕ)
    (σ : ParamStore) (a : ℕ) : ParamStore × Option ℝ :=
  lsmRun cfg fuel σ (.price a)

noncomputable def AmericanOptionPricer.compute_delta (cfg : LSMConfig) (fuel : ℕ)
    (σ : ParamStore) (a : ℕ) (eps : ℝ) : ParamStore × Option ℝ :=
  lsmRun cfg fuel σ (.delta a eps)

noncomputable def AmericanOptionPricer.compute_gamma (cfg : LSMConfig) (fuel : ℕ)
    (σ : ParamStore) (a : ℕ) (eps : ℝ) : ParamStore × Option ℝ :=
  lsmRun cfg fuel σ (.gamma a eps)

noncomputable def AmericanOptionPricer.compute_theta (cfg : LSMConfig) (fuel : ℕ)
    (σ : ParamStore) (a : ℕ) (eps : ℝ) : ParamStore × Option ℝ :=
  lsmRun cfg fuel σ (.theta a eps)

noncomputable def AmericanOptionPricer.compute_vega (cfg : LSMConfig) (fuel : ℕ)
    (σ : ParamStore) (a : ℕ) (eps : ℝ) : ParamStore × Option ℝ :=
  lsmRun cfg fuel σ (.vega a eps)

lemma andThen_snd_none (st : ParamStore × Option ℝ)
    (k : ParamStore → ℝ → ParamStore × Option ℝ) (h : st.2 = none) :
    (andThen st k).2 = none := by
  rcases st with ⟨σ, o⟩
  have ho : o = none := h
  subst ho
  rfl

/-- Every call of the `price`/Greeks cluster diverges: there is no base case in
the mutual recursion, so for every stack budget the result is a
`RecursionError` (`none`). -/
lemma lsmRun_none (cfg : LSMConfig) : ∀ fuel σ c, (lsmRun cfg fuel σ c).2 = none := by
  intro fuel
  induction fuel with
  | zero =>
    intro σ c
    rfl
  | succ n ih =>
    intro σ c
    cases c with
    | price a =>
      simp only [lsmRun]
      exact andThen_snd_none _ _ (ih _ _)
    | delta a eps =>
      simp only [lsmRun]
      exact andThen_snd_none _ _ (ih _ _)
    | gamma a eps =>
      simp only [lsmRun]
      exact andThen_snd_none _ _ (ih _ _)
    | theta a eps =>
      simp only [lsmRun]
      exact andThen_snd_none _ _ (ih _ _)
    | vega a eps =>
      simp only [lsmRun]
      exact andThen_snd_none _ _ (ih _ _)

/-- Store extension: the allocation counter never decreases and previously
allocated objects are untouched. -/
def StoreExt (σ σ' : ParamStore) : Prop :=
  σ.next ≤ σ'.next ∧ ∀ b, b < σ.next → σ'.params b = σ.params b

lemma StoreExt.rfl' (σ : ParamStore) : StoreExt σ σ := ⟨le_rfl, fun _ _ => rfl⟩

lemma StoreExt.trans' {σ1 σ2 σ3 : ParamStore} (h12 : StoreExt σ1 σ2)
    (h23 : StoreExt σ2 σ3) : StoreExt σ1 σ3 :=
  ⟨le_trans h12.1 h23.1, fun b hb => (h23.2 b (lt_of_lt_of_le hb h12.1)).trans (h12.2 b hb)⟩

lemma StoreExt.alloc (σ : ParamStore) (p : AmericanOptionParams) :
    StoreExt σ (σ.alloc p).2 := by
  refine ⟨Nat.le_succ _, fun b hb => ?_⟩
  simp only [ParamStore.alloc]
  exact Function.update_noteq (Nat.ne_of_lt hb) p σ.params

lemma StoreExt.set {σ σ' : ParamStore} (h : StoreExt σ σ') {a : ℕ} (ha : σ.next ≤ a)
    (p : AmericanOptionParams) : StoreExt σ (σ'.set a p) := by
  refine ⟨h.1, fun b hb => ?_⟩
  simp only [ParamStore.set]
  have hba : b ≠ a := by omega
  rw [Function.update_noteq hba]
  exact h.2 b hb

lemma StoreExt.allocSet (σ : ParamStore) (p q : AmericanOptionParams) :
    StoreExt σ ((σ.alloc p).2.set (σ.alloc p).1 q) :=
  StoreExt.set (StoreExt.alloc σ p) le_rfl q

lemma StoreExt.allocSet2 {σ σ' : ParamStore} (h : StoreExt σ σ')
    (p q : AmericanOptionParams) :
    StoreExt σ ((σ'.alloc p).2.set (σ'.alloc p).1 q) :=
  StoreExt.trans' h (StoreExt.allocSet σ' p q)

lemma andThen_ext {σ0 : ParamStore} {st : ParamStore × Option ℝ}
    {k : ParamStore → ℝ → ParamStore × Option ℝ}
    (h1 : StoreExt σ0 st.1) (h2 : ∀ σ x, StoreExt σ (k σ x).1) :
    StoreExt σ0 (andThen st k).1 := by
  rcases st with ⟨σ, o⟩
  cases o with
  | none => exact h1
  | some x => exact StoreExt.trans' h1 (h2 σ x)

/-- Every call of the cluster only allocates fresh objects and mutates those:
the final store extends the initial one. -/
lemma lsmRun_ext (cfg : LSMConfig) : ∀ fuel σ c, StoreExt σ (lsmRun cfg fuel σ c).1 := by
  intro fuel
  induction fuel with
  | zero =>
    intro σ c
    exact StoreExt.rfl' σ
  | succ n ih =>
    intro σ c
    cases c with
    | price a =>
      simp only [lsmRun]
      exact andThen_ext (ih _ _) (fun σ1 _ => andThen_ext (ih _ _) (fun σ2 _ =>
        andThen_ext (ih _ _) (fun σ3 _ => andThen_ext (ih _ _)
          (fun σ4 _ => StoreExt.rfl' _))))
    | delta a eps =>
      simp only [lsmRun]
      refine andThen_ext (StoreExt.trans' ?_ (ih _ _))
        (fun σ5 pu => andThen_ext (ih _ _) (fun σ6 pd => StoreExt.rfl' _))
      exact StoreExt.allocSet2 (StoreExt.allocSet _ _ _) _ _
    | gamma a eps =>
      simp only [lsmRun]
      refine andThen_ext (StoreExt.trans' ?_ (ih _ _))
        (fun σ5 du => andThen_ext (ih _ _) (fun σ6 dd => StoreExt.rfl' _))
      exact StoreExt.allocSet2 (StoreExt.allocSet _ _ _) _ _
    | theta a eps =>
      simp only [lsmRun]
      exact andThen_ext (StoreExt.trans' (StoreExt.allocSet _ _ _) (ih _ _))
        (fun σ3 pr => andThen_ext (ih _ _) (fun σ4 pd => StoreExt.rfl' _))
    | vega a eps =>
      simp only [lsmRun]
      refine andThen_ext (StoreExt.trans' ?_ (ih _ _))
        (fun σ5 pu => andThen_ext (ih _ _) (fun σ6 pd => StoreExt.rfl' _))
      exact StoreExt.allocSet2 (StoreExt.allocSet _ _ _) _ _

noncomputable def lsmConfig0 : LSMConfig := ⟨2, 1, 0, fun _ => lsmGrid, lsmZeroReg⟩

noncomputable def lsmStore0 : ParamStore := ⟨fun _ => lsmPutParams, 1⟩

/-- C9: the reported time-0 value `option_value` (line 130) is exactly
`max(discounted mean of the time-1 value row, time-0 intrinsic value)` and is
therefore `>=` the time-0 intrinsic value and `>= 0`; but `price` itself never
returns it: `price` computes the Greeks by calling `compute_delta` etc., each
of which calls `price` back, so for every call-stack budget the method ends in
a `RecursionError` instead of returning the dict. -/
theorem C9_report_formula_but_price_never_returns :
    (∀ cfg fuel σ a, (AmericanOptionPricer.price cfg fuel σ a).2 = none) ∧
    (∀ lstsq num_basis p N M S, S 0 0 = p.S0 →
      AmericanOptionPricer.optionValue lstsq num_basis p N M S =
        max ((∑ j ∈ Finset.range M,
            AmericanOptionPricer.Vrow lstsq num_basis p N M S (N - 1) j *
              Real.exp (-p.r * (p.T / (N : ℝ)))) / (M : ℝ))
          (AmericanOptionPricer.payoff p p.S0) ∧
      AmericanOptionPricer.payoff p p.S0 ≤
        AmericanOptionPricer.optionValue lstsq num_basis p N M S ∧
      0 ≤ AmericanOptionPricer.optionValue lstsq num_basis p N M S) := by
  constructor
  · intro cfg fuel σ a
    exact lsmRun_none cfg fuel σ _
  · intro lstsq num_basis p N M S h
    refine ⟨?_, ?_, optionValue_nonneg lstsq num_basis p N M S⟩
    · unfold AmericanOptionPricer.optionValue
      rw [h]
    · rw [← h]
      exact optionValue_ge_intrinsic lstsq num_basis p N M S

/-- C9 witness: the divergence and the report formula at the concrete put,
grid and oracles. -/
theorem C9_report_formula_witness :
    (AmericanOptionPricer.price lsmConfig0 5 lsmStore0 0).2 = none ∧
    (AmericanOptionPricer.optionValue lsmZeroReg 0 lsmPutParams 2 1 lsmGrid =
        max ((∑ j ∈ Finset.range 1,
            AmericanOptionPricer.Vrow lsmZeroReg 0 lsmPutParams 2 1 lsmGrid (2 - 1) j *
              Real.exp (-lsmPutParams.r * (lsmPutParams.T / ((2:ℕ) : ℝ)))) / ((1:ℕ) : ℝ))
          (AmericanOptionPricer.payoff lsmPutParams lsmPutParams.S0) ∧
      AmericanOptionPricer.payoff lsmPutParams lsmPutParams.S0 ≤
        AmericanOptionPricer.optionValue lsmZeroReg 0 lsmPutParams 2 1 lsmGrid ∧
      0 ≤ AmericanOptionPricer.optionValue lsmZeroReg 0 lsmPutParams 2 1 lsmGrid) :=
  ⟨C9_report_formula_but_price_never_returns.1 lsmConfig0 5 lsmStore0 0,
   C9_report_formula_but_price_never_returns.2 lsmZeroReg 0 lsmPutParams 2 1 lsmGrid rfl⟩

/-- C10: each finite-difference Greek routine mutates only freshly allocated
copies of the parameter object: for every fuel, store and bump size, after
`compute_delta`/`compute_gamma`/`compute_theta`/`compute_vega` the caller's
object (any previously allocated address) holds its original field values. -/
theorem C10_greeks_mutate_only_copies (cfg : LSMConfig) (fuel : ℕ) (σ : ParamStore)
    (a : ℕ) (eps : ℝ) (h : a < σ.next) :
    (AmericanOptionPricer.compute_delta cfg fuel σ a eps).1.params a = σ.params a ∧
    (AmericanOptionPricer.compute_gamma cfg fuel σ a eps).1.params a = σ.params a ∧
    (AmericanOptionPricer.compute_theta cfg fuel σ a eps).1.params a = σ.params a ∧
    (AmericanOptionPricer.compute_vega cfg fuel σ a eps).1.params a = σ.params a :=
  ⟨(lsmRun_ext cfg fuel σ (.delta a eps)).2 a h,
   (lsmRun_ext cfg fuel σ (.gamma a eps)).2 a h,
   (lsmRun_ext cfg fuel σ (.theta a eps)).2 a h,
   (lsmRun_ext cfg fuel σ (.vega a eps)).2 a h⟩

/-- C10 witness: the frame property at a concrete store holding the put
parameters at address 0. -/
theorem C10_greeks_mutate_only_copies_witness :
    (0 < lsmStore0.next) ∧
    (AmericanOptionPricer.compute_delta lsmConfig0 3 lsmStore0 0 (1/100)).1.params 0 =
      lsmStore0.params 0 ∧
    (AmericanOptionPricer.compute_gamma lsmConfig0 3 lsmStore0 0 (1/100)).1.params 0 =
      lsmStore0.params 0 ∧
    (AmericanOptionPricer.compute_theta lsmConfig0 3 lsmStore0 0 (1/365)).1.params 0 =
      lsmStore0.params 0 ∧
    (AmericanOptionPricer.compute_vega lsmConfig0 3 lsmStore0 0 (1/1000)).1.params 0 =
      lsmStore0.params 0 :=
  ⟨Nat.zero_lt_one,
   (C10_greeks_mutate_only_copies lsmConfig0 3 lsmStore0 0 (1/100) Nat.zero_lt_one).1,
   (C10_greeks_mutate_only_copies lsmConfig0 3 lsmStore0 0 (1/100) Nat.zero_lt_one).2.1,
   (C10_greeks_mutate_only_copies lsmConfig0 3 lsmStore0 0 (1/365) Nat.zero_lt_one).2.2.1,
   (C10_greeks_mutate_only_copies lsmConfig0 3 lsmStore0 0 (1/1000) Nat.zero_lt_one).2.2.2⟩
